import Mathlib

/-!
# Unicorn runner: physics and collision step of `src/main.cpp`

Shallow embedding of the simulation core of `src/main.cpp`:
the classes `Unicorn`, `Platform`, `Level`, `GameState` (with `update` and
`restart`), the key handling of the event loop of `main`, and the camera
transform used when the platforms are drawn.

Modelling conventions.
* A C++ `double` is an exact rational (`ℚ`); the literal `0.02` is the
  rational `1/50`.  Rounding, infinities and NaN are not modelled.
* The heap objects `unicorn` and `level` owned by a `GameState` are plain
  fields of the state.
* `level->platforms[i]` with `i` outside the vector has no defined result in
  C++; `GameState.update` therefore returns an `Option`, `none` marking such
  an access.
* `SDL_Delay(1000)` in the fatal branch only waits; it has no effect on the
  state and is left out.
-/

namespace UnicornGame

/-! ## Constants (`#define`s of `src/main.cpp`, lines 74-83) -/

/-- Window height in pixels, `#define SCREEN_HEIGHT 480`. -/
@[reducible] def SCREEN_HEIGHT : Int := 480

/-- Pixels per standardized unit, `#define SCALE 32`. -/
@[reducible] def SCALE : Int := 32

/-- Logical rider width, `#define UNICORN_WIDTH_STANDARDIZED 2`. -/
@[reducible] def UNICORN_WIDTH_STANDARDIZED : Int := 2

/-- Logical rider height, `#define UNICORN_HEIGHT_STANDARDIZED 1`. -/
@[reducible] def UNICORN_HEIGHT_STANDARDIZED : Int := 1

/-- Rider marker width in pixels, `#define UNICORN_WIDTH_PX 64`. -/
@[reducible] def UNICORN_WIDTH_PX : Int := 64

/-- Rider marker height in pixels, `#define UNICORN_HEIGHT_PX 32`. -/
@[reducible] def UNICORN_HEIGHT_PX : Int := 32

/-- Gravity, `#define GRAVITY 15`. -/
@[reducible] def GRAVITY : Int := 15

/-- Horizontal speed factor while dashing, `#define DASH_SPEED_MULT 2`. -/
@[reducible] def DASH_SPEED_MULT : Int := 2

/-! ## Data model -/

/-- The rider, `class Unicorn` (lines 85-98): position, velocity and the
remaining dash (boost) time. -/
structure Unicorn where
  x : ℚ
  y : ℚ
  dx : ℚ
  dy : ℚ
  dash_time : ℚ
  deriving DecidableEq, Repr

/-- Constructor `Unicorn(double xx, double yy)` (lines 90-97). -/
def Unicorn.new (xx yy : ℚ) : Unicorn :=
  { x := xx, y := yy, dx := 0, dy := 0, dash_time := 0 }

/-- An obstacle, `class Platform` (lines 100-111). -/
structure Platform where
  x : ℚ
  y : ℚ
  w : ℚ
  h : ℚ
  deriving DecidableEq, Repr

/-- The level, `class Level` (lines 113-124): an `int` count and the vector of
platforms. -/
structure Level where
  platform_count : Int
  platforms : List Platform
  deriving DecidableEq, Repr

/-- Constructor `Level(unsigned platform_count_, vector<Platform> platforms_)`
(lines 119-123).  The argument is an `unsigned` (32 bits) and is stored into an
`int` field, so it is reduced modulo `2^32` and read back as a signed value. -/
def Level.new (platform_count_ : Nat) (platforms_ : List Platform) : Level :=
  let n : Nat := platform_count_ % 4294967296
  { platform_count := if n < 2147483648 then (n : Int) else (n : Int) - 4294967296,
    platforms := platforms_ }

/-- The level as `main` builds it (line 269):
`new Level(platforms.size(), platforms)`. -/
def Level.ofPlatforms (platforms : List Platform) : Level :=
  Level.new platforms.length platforms

/-- Horizontal control policy, `enum Movement` (lines 126-130). -/
inductive Movement where
  | AUTO
  | ARROWS
  deriving DecidableEq, Repr

/-- The session state, `class GameState` (lines 132-139). -/
structure GameState where
  unicorn : Unicorn
  level : Level
  time : ℚ
  endGame : Bool
  movement : Movement
  deriving DecidableEq, Repr

/-- Constructor `GameState(Level* lvl)` (lines 141-148). -/
def GameState.new (lvl : Level) : GameState :=
  { unicorn := Unicorn.new 0 3, time := 0, endGame := false, level := lvl,
    movement := Movement.AUTO }

/-! ## `GameState::update` (lines 150-199) -/

/-- Lines 153-171 of `update`: position integration, gravity, automatic
horizontal speed, dash multiplier and dash decay, in source order.  The C++
expression `GRAVITY * timestep * (dash_time == 0)` multiplies by the
comparison result, `1` or `0`. -/
def kinematics (timestep : ℚ) (gs : GameState) : GameState :=
  let u := gs.unicorn
  -- Update position
  let u := { u with x := u.x + timestep * u.dx }
  let u := { u with y := u.y + timestep * u.dy }
  -- Update gravity (unless unicorn in dash)
  let u := { u with dy := u.dy - (GRAVITY : ℚ) * timestep * (if u.dash_time = 0 then 1 else 0) }
  -- Auto increment x velocity (if AUTO mode selected)
  let u := if gs.movement = Movement.AUTO then { u with dx := 2 + gs.time } else u
  -- Multiply x velocity if unicorn is dashing
  let u := if u.dash_time > 0 then
      { u with dx := u.dx * (DASH_SPEED_MULT : ℚ), dash_time := u.dash_time - 0.02 }
    else u
  let u := if u.dash_time < 0 then { u with dash_time := 0 } else u
  { gs with unicorn := u }

/-- The rejection test of lines 178-181: `true` when the platform and the
rider do not overlap (the loop then `continue`s). -/
def noCollision (p : Platform) (u : Unicorn) : Bool :=
  decide (p.x > u.x + (UNICORN_WIDTH_STANDARDIZED : ℚ))
    || decide (p.y < u.y - (UNICORN_HEIGHT_STANDARDIZED : ℚ))
    || decide (p.x + p.w < u.x)
    || decide (p.y - p.h > u.y)

/-- The diagonal test of line 186: `true` when an overlap counts as a landing.
The right-hand side `1 - UNICORN_WIDTH_STANDARDIZED` is the integer `-1`. -/
def landed (p : Platform) (u : Unicorn) : Bool :=
  decide (u.y + u.x - (p.y + p.x) ≥ ((1 - UNICORN_WIDTH_STANDARDIZED : Int) : ℚ))

/-- One iteration of the platform loop (body of lines 176-197). -/
def collisionStep (p : Platform) (gs : GameState) : GameState :=
  if noCollision p gs.unicorn then
    gs -- No collision between unicorn and the platform
  else if landed p gs.unicorn then
    -- Unicorn landed on platform from above
    let u := { gs.unicorn with y := p.y + (UNICORN_HEIGHT_STANDARDIZED : ℚ) }
    { gs with unicorn := { u with dy := 0 } }
  else
    -- otherwise: unicorn is dead
    { gs with endGame := true }

/-- The loop `for (int i = 0; i < level->platform_count; i++)` of line 174,
started at index `i` with `n` iterations left.  Reading `platforms[i]` outside
the vector gives `none`. -/
def collisionLoop : Nat → Nat → GameState → Option GameState
  | 0, _, gs => some gs
  | n + 1, i, gs =>
    match gs.level.platforms[i]? with
    | none => none
    | some p => collisionLoop n (i + 1) (collisionStep p gs)

/-- Method `GameState::update(double timestep)` (lines 150-199). -/
def GameState.update (gs : GameState) (timestep : ℚ) : Option GameState :=
  let gs := kinematics timestep gs
  collisionLoop gs.level.platform_count.toNat 0 gs

/-- Method `GameState::restart()` (lines 200-207). -/
def GameState.restart (gs : GameState) : GameState :=
  let gs := { gs with time := 0 }
  let gs := { gs with unicorn := { gs.unicorn with x := 0 } }
  let gs := { gs with unicorn := { gs.unicorn with y := 3 } }
  let gs := { gs with unicorn := { gs.unicorn with dy := 0 } }
  { gs with unicorn := { gs.unicorn with dx := 0 } }

/-! ## Key handling of the event loop (`main`, lines 322-346) -/

/-- The keys the `SDL_KEYDOWN` branch distinguishes; `other` is any other
key. -/
inductive Key where
  | ESCAPE
  | UP
  | n
  | d
  | RIGHT
  | LEFT
  | x
  | other
  deriving DecidableEq, Repr

/-- Effect of one `SDL_KEYDOWN` event on the game state (lines 323-344), the
`if`/`else if` chain in source order.  `ESCAPE` only sets the local `exit` of
`main` and leaves the game state as it is. -/
def keyDown (key : Key) (gs : GameState) : GameState :=
  if key = Key.ESCAPE then gs
  else if key = Key.UP then { gs with unicorn := { gs.unicorn with dy := 10 } }
  else if key = Key.n then gs.restart
  else if key = Key.d then
    let gs := if gs.movement = Movement.AUTO then { gs with movement := Movement.ARROWS }
      else { gs with movement := Movement.AUTO }
    { gs with unicorn := { gs.unicorn with dx := 0 } }
  else if key = Key.RIGHT ∧ gs.movement = Movement.ARROWS then
    { gs with unicorn := { gs.unicorn with dx := gs.unicorn.dx + 2 } }
  else if key = Key.LEFT ∧ gs.movement = Movement.ARROWS then
    { gs with unicorn := { gs.unicorn with dx := gs.unicorn.dx - 2 } }
  else if key = Key.x then { gs with unicorn := { gs.unicorn with dash_time := 1 } }
  else gs

/-! ## Camera transform (`main`, lines 295-308) -/

/-- Top-left pixel at which the rider marker is drawn (line 296):
`DrawRectangle(screen, SCALE, (SCREEN_HEIGHT-UNICORN_HEIGHT_PX)/2, ...)`, the
division being the integer division of C. -/
def unicornAnchor : Int × Int :=
  (SCALE, Int.tdiv (SCREEN_HEIGHT - UNICORN_HEIGHT_PX) 2)

/-- Lines 304-307: the values `px*SCALE` and `py*SCALE` computed for platform
`p`, as rationals, before they are passed to the `int` parameters of
`DrawRectangle`.  `screen_h` is `screen->h`. -/
def cameraTransform (u : Unicorn) (screen_h : Int) (p : Platform) : ℚ × ℚ :=
  let px := p.x - u.x + 1
  let py := u.y + ((screen_h : ℚ) / (SCALE : ℚ) - (UNICORN_HEIGHT_STANDARDIZED : ℚ)) / 2 - p.y
  (px * (SCALE : ℚ), py * (SCALE : ℚ))

/-- Conversion of a `double` to the `int` parameter of `DrawRectangle`:
truncation toward zero.  Values outside the range of `int`, for which C++
defines no result, are not told apart. -/
def toInt (q : ℚ) : Int :=
  if 0 ≤ q then ⌊q⌋ else ⌈q⌉

/-- The pixel position handed to `DrawRectangle` for platform `p` (line 307). -/
def platformPixel (u : Unicorn) (screen_h : Int) (p : Platform) : Int × Int :=
  (toInt (cameraTransform u screen_h p).1, toInt (cameraTransform u screen_h p).2)

/-! ## Vocabulary used in the statements -/

/-- Every index the platform loop reads lies inside the vector:
`platform_count` does not exceed `platforms.size()`. -/
@[reducible] def Level.inBounds (lvl : Level) : Prop :=
  lvl.platform_count.toNat ≤ lvl.platforms.length

/-- The platforms the loop visits: the first `platform_count` entries. -/
def Level.visited (lvl : Level) : List Platform :=
  lvl.platforms.take lvl.platform_count.toNat

/-- The loop as a left fold of `collisionStep` over a list of platforms. -/
def collisionFold (ps : List Platform) (gs : GameState) : GameState :=
  ps.foldl (fun g p => collisionStep p g) gs

/-- Platform `p` overlaps a rider placed at `(x, y)`: none of the four
rejection conditions `p.x > x + 2`, `p.y < y - 1`, `p.x + p.w < x`,
`p.y - p.h > y` holds. -/
def overlapsAt (p : Platform) (x y : ℚ) : Prop :=
  ¬ (p.x > x + 2) ∧ ¬ (p.y < y - 1) ∧ ¬ (p.x + p.w < x) ∧ ¬ (p.y - p.h > y)

instance (p : Platform) (x y : ℚ) : Decidable (overlapsAt p x y) := by
  unfold overlapsAt
  infer_instance

/-- The diagonal sum `s = (y + x) - (p.y + p.x)` of a rider at `(x, y)` against
platform `p`. -/
def diagonal (p : Platform) (x y : ℚ) : ℚ :=
  (y + x) - (p.y + p.x)

/-- The boost timer is not negative. -/
def boostNonneg (gs : GameState) : Prop :=
  0 ≤ gs.unicorn.dash_time

instance (gs : GameState) : Decidable (boostNonneg gs) := by
  unfold boostNonneg
  infer_instance

/-- Rider and platform moved by the same vector `(vx, vy)`. -/
def Unicorn.translate (u : Unicorn) (vx vy : ℚ) : Unicorn :=
  { u with x := u.x + vx, y := u.y + vy }

/-- A platform moved by the vector `(vx, vy)`. -/
def Platform.translate (p : Platform) (vx vy : ℚ) : Platform :=
  { p with x := p.x + vx, y := p.y + vy }

/-! ## Concrete states used as examples -/

/-- The platform `(x, y, w, h) = (0, 1, 4, 1)`. -/
def examplePlatform : Platform := { x := 0, y := 1, w := 4, h := 1 }

/-- A second platform, `(-2, 1, 4, 1)`. -/
def leftPlatform : Platform := { x := -2, y := 1, w := 4, h := 1 }

/-- The freshly constructed session on a level without platforms. -/
def freshState : GameState := GameState.new (Level.ofPlatforms [])

/-- The freshly constructed session on the level made of `examplePlatform`:
the rider is at the spawn point `(0, 3)`. -/
def spawnState : GameState := GameState.new (Level.ofPlatforms [examplePlatform])

/-- A session that has ended, with the rider away from the spawn point, moving,
and a boost in progress. -/
def endedState : GameState :=
  { unicorn := { x := 5, y := -2, dx := 7, dy := -4, dash_time := 1 / 2 },
    level := Level.ofPlatforms [examplePlatform], time := 9, endGame := true,
    movement := Movement.ARROWS }

/-- A session in AUTO mode at elapsed time `5` with a boost just started. -/
def dashingState : GameState :=
  { unicorn := { x := 0, y := 3, dx := 0, dy := 0, dash_time := 1 },
    level := Level.ofPlatforms [], time := 5, endGame := false,
    movement := Movement.AUTO }

/-- Rider at `(0, 2)` falling with `dy = -1` above `examplePlatform`. -/
def landingState : GameState :=
  { unicorn := { x := 0, y := 2, dx := 0, dy := -1, dash_time := 0 },
    level := Level.ofPlatforms [examplePlatform], time := 0, endGame := false,
    movement := Movement.ARROWS }

/-- Rider at `(-2, 3/2)`, at rest, touching the left edge of `examplePlatform`
from the side. -/
def sideState : GameState :=
  { unicorn := { x := -2, y := 3 / 2, dx := 0, dy := 0, dash_time := 0 },
    level := Level.ofPlatforms [examplePlatform], time := 0, endGame := false,
    movement := Movement.ARROWS }

/-- The rider of `sideState` on a level of two platforms, `examplePlatform`
first and `leftPlatform` second. -/
def twoPlatformState : GameState :=
  { sideState with level := Level.ofPlatforms [examplePlatform, leftPlatform] }

/-- Rider standing on `examplePlatform` (`y = p.y + 1`, `dy = 0`) and running
right with `dx = 3`. -/
def standingState : GameState :=
  { unicorn := { x := 1, y := 2, dx := 3, dy := 0, dash_time := 0 },
    level := Level.ofPlatforms [examplePlatform], time := 0, endGame := false,
    movement := Movement.ARROWS }

/-! ## Facts about the kinematic part of `update` -/

theorem kinematics_level (t : ℚ) (gs : GameState) : (kinematics t gs).level = gs.level := rfl

theorem kinematics_time (t : ℚ) (gs : GameState) : (kinematics t gs).time = gs.time := rfl

theorem kinematics_endGame (t : ℚ) (gs : GameState) :
    (kinematics t gs).endGame = gs.endGame := rfl

theorem kinematics_movement (t : ℚ) (gs : GameState) :
    (kinematics t gs).movement = gs.movement := rfl

theorem kinematics_x (t : ℚ) (gs : GameState) :
    (kinematics t gs).unicorn.x = gs.unicorn.x + t * gs.unicorn.dx := by
  unfold kinematics
  dsimp only
  split_ifs <;> rfl

theorem kinematics_y (t : ℚ) (gs : GameState) :
    (kinematics t gs).unicorn.y = gs.unicorn.y + t * gs.unicorn.dy := by
  unfold kinematics
  dsimp only
  split_ifs <;> rfl

theorem kinematics_dy (t : ℚ) (gs : GameState) :
    (kinematics t gs).unicorn.dy
      = gs.unicorn.dy - 15 * t * (if gs.unicorn.dash_time = 0 then 1 else 0) := by
  unfold kinematics
  dsimp only
  split_ifs <;> simp

theorem kinematics_dx (t : ℚ) (gs : GameState) :
    (kinematics t gs).unicorn.dx
      = (if gs.unicorn.dash_time > 0 then 2 else 1)
          * (if gs.movement = Movement.AUTO then 2 + gs.time else gs.unicorn.dx) := by
  unfold kinematics
  dsimp only
  split_ifs <;> simp_all <;> ring

theorem kinematics_dash_time (t : ℚ) (gs : GameState) :
    (kinematics t gs).unicorn.dash_time
      = if gs.unicorn.dash_time > 0 then max 0 (gs.unicorn.dash_time - 1 / 50) else 0 := by
  unfold kinematics
  dsimp only
  have hdec : (gs.unicorn.dash_time - 0.02 : ℚ) = gs.unicorn.dash_time - 1 / 50 := by norm_num
  rcases lt_trichotomy gs.unicorn.dash_time 0 with h | h | h
  · have h1 : ¬ gs.unicorn.dash_time > 0 := not_lt.mpr h.le
    by_cases hm : gs.movement = Movement.AUTO <;> simp [kinematics, hm, h, h1]
  · by_cases hm : gs.movement = Movement.AUTO <;> simp [kinematics, hm, h]
  · rw [if_pos h]
    by_cases hneg : gs.unicorn.dash_time - 1 / 50 < 0
    · rw [max_eq_left hneg.le]
      by_cases hm : gs.movement = Movement.AUTO <;>
        simp only [kinematics, hm, h, hdec, hneg, gt_iff_lt, if_true, if_false]
    · rw [max_eq_right (not_lt.mp hneg)]
      by_cases hm : gs.movement = Movement.AUTO <;>
        simp only [kinematics, hm, h, hdec, hneg, gt_iff_lt, if_true, if_false]

/-! ## Facts about the platform loop -/

theorem collisionStep_level (p : Platform) (gs : GameState) :
    (collisionStep p gs).level = gs.level := by
  unfold collisionStep
  split_ifs <;> rfl

theorem collisionStep_time (p : Platform) (gs : GameState) :
    (collisionStep p gs).time = gs.time := by
  unfold collisionStep
  split_ifs <;> rfl

theorem collisionStep_movement (p : Platform) (gs : GameState) :
    (collisionStep p gs).movement = gs.movement := by
  unfold collisionStep
  split_ifs <;> rfl

theorem collisionStep_x (p : Platform) (gs : GameState) :
    (collisionStep p gs).unicorn.x = gs.unicorn.x := by
  unfold collisionStep
  split_ifs <;> rfl

theorem collisionStep_dx (p : Platform) (gs : GameState) :
    (collisionStep p gs).unicorn.dx = gs.unicorn.dx := by
  unfold collisionStep
  split_ifs <;> rfl

theorem collisionStep_dash_time (p : Platform) (gs : GameState) :
    (collisionStep p gs).unicorn.dash_time = gs.unicorn.dash_time := by
  unfold collisionStep
  split_ifs <;> rfl

theorem collisionFold_nil (gs : GameState) : collisionFold [] gs = gs := rfl

theorem collisionFold_cons (p : Platform) (ps : List Platform) (gs : GameState) :
    collisionFold (p :: ps) gs = collisionFold ps (collisionStep p gs) := rfl

/-- When all indices read are in bounds the loop returns, and its result is the
fold of `collisionStep` over the platforms `i, ..., i + n - 1`. -/
theorem collisionLoop_eq_fold (n : Nat) :
    ∀ (i : Nat) (gs : GameState), i + n ≤ gs.level.platforms.length →
      collisionLoop n i gs
        = some (collisionFold ((gs.level.platforms.drop i).take n) gs) := by
  induction n with
  | zero =>
    intro i gs _
    simp [collisionLoop, collisionFold]
  | succ n ih =>
    intro i gs h
    have hi : i < gs.level.platforms.length := by omega
    have hstep : i + 1 + n ≤ (collisionStep gs.level.platforms[i] gs).level.platforms.length := by
      rw [collisionStep_level]; omega
    rw [collisionLoop, List.getElem?_eq_getElem hi]
    dsimp only
    rw [ih (i + 1) _ hstep, collisionStep_level, List.drop_eq_getElem_cons hi,
      List.take_succ_cons, collisionFold_cons]

/-- On a level whose count is within the vector, `update` returns: it is the
kinematic step followed by the fold over the visited platforms. -/
theorem update_eq_fold (gs : GameState) (t : ℚ) (h : gs.level.inBounds) :
    gs.update t = some (collisionFold gs.level.visited (kinematics t gs)) := by
  unfold GameState.update
  dsimp only
  rw [collisionLoop_eq_fold _ 0 _ (by rw [kinematics_level]; simpa using h)]
  simp [Level.visited, kinematics_level]

theorem ofPlatforms_nil : Level.ofPlatforms [] = { platform_count := 0, platforms := [] } := by
  decide

theorem ofPlatforms_single (p : Platform) :
    Level.ofPlatforms [p] = { platform_count := 1, platforms := [p] } := by
  simp [Level.ofPlatforms, Level.new]

theorem ofPlatforms_pair (p q : Platform) :
    Level.ofPlatforms [p, q] = { platform_count := 2, platforms := [p, q] } := by
  simp [Level.ofPlatforms, Level.new]

theorem update_nil (gs : GameState) (t : ℚ) (h : gs.level = Level.ofPlatforms []) :
    gs.update t = some (kinematics t gs) := by
  rw [update_eq_fold gs t (by rw [h, ofPlatforms_nil]; simp [Level.inBounds]), h, ofPlatforms_nil]
  rfl

theorem update_single (gs : GameState) (t : ℚ) (p : Platform)
    (h : gs.level = Level.ofPlatforms [p]) :
    gs.update t = some (collisionStep p (kinematics t gs)) := by
  rw [update_eq_fold gs t (by rw [h, ofPlatforms_single]; simp [Level.inBounds]), h,
    ofPlatforms_single]
  rfl

theorem update_pair (gs : GameState) (t : ℚ) (p q : Platform)
    (h : gs.level = Level.ofPlatforms [p, q]) :
    gs.update t = some (collisionStep q (collisionStep p (kinematics t gs))) := by
  rw [update_eq_fold gs t (by rw [h, ofPlatforms_pair]; simp [Level.inBounds]), h,
    ofPlatforms_pair]
  rfl

theorem noCollision_eq_false_iff (p : Platform) (u : Unicorn) :
    noCollision p u = false ↔ overlapsAt p u.x u.y := by
  simp [noCollision, overlapsAt, and_assoc]

theorem landed_iff (p : Platform) (u : Unicorn) :
    landed p u = true ↔ diagonal p u.x u.y ≥ -1 := by
  have hc : (((1 - UNICORN_WIDTH_STANDARDIZED : Int) : ℚ)) = -1 := by norm_num
  unfold landed diagonal
  rw [hc, decide_eq_true_iff]

theorem collisionStep_noOverlap (p : Platform) (gs : GameState)
    (h : ¬ overlapsAt p gs.unicorn.x gs.unicorn.y) : collisionStep p gs = gs := by
  have hn : noCollision p gs.unicorn = true := by
    rw [← Bool.not_eq_false, noCollision_eq_false_iff]
    exact h
  simp [collisionStep, hn]

theorem collisionStep_landing (p : Platform) (gs : GameState)
    (h : overlapsAt p gs.unicorn.x gs.unicorn.y)
    (hs : diagonal p gs.unicorn.x gs.unicorn.y ≥ -1) :
    collisionStep p gs = { gs with unicorn := { gs.unicorn with y := p.y + 1, dy := 0 } } := by
  have hn : noCollision p gs.unicorn = false := (noCollision_eq_false_iff p _).mpr h
  have hl : landed p gs.unicorn = true := (landed_iff p _).mpr hs
  simp [collisionStep, hn, hl]

theorem collisionStep_fatal (p : Platform) (gs : GameState)
    (h : overlapsAt p gs.unicorn.x gs.unicorn.y)
    (hs : diagonal p gs.unicorn.x gs.unicorn.y < -1) :
    collisionStep p gs = { gs with endGame := true } := by
  have hn : noCollision p gs.unicorn = false := (noCollision_eq_false_iff p _).mpr h
  have hl : landed p gs.unicorn = false := by
    rw [← Bool.not_eq_true, landed_iff]
    exact not_le.mpr hs
  simp [collisionStep, hn, hl]

/-- The fold leaves `x`, `dx`, the boost timer, the level, the time and the
control mode as they are. -/
theorem collisionFold_frame (ps : List Platform) :
    ∀ gs : GameState,
      (collisionFold ps gs).unicorn.x = gs.unicorn.x ∧
      (collisionFold ps gs).unicorn.dx = gs.unicorn.dx ∧
      (collisionFold ps gs).unicorn.dash_time = gs.unicorn.dash_time ∧
      (collisionFold ps gs).level = gs.level ∧
      (collisionFold ps gs).time = gs.time ∧
      (collisionFold ps gs).movement = gs.movement := by
  induction ps with
  | nil => intro gs; simp [collisionFold_nil]
  | cons p ps ih =>
    intro gs
    rw [collisionFold_cons]
    obtain ⟨h1, h2, h3, h4, h5, h6⟩ := ih (collisionStep p gs)
    rw [h1, h2, h3, h4, h5, h6]
    exact ⟨collisionStep_x p gs, collisionStep_dx p gs, collisionStep_dash_time p gs,
      collisionStep_level p gs, collisionStep_time p gs, collisionStep_movement p gs⟩

/-- A fold over platforms none of which overlaps the rider changes nothing. -/
theorem collisionFold_noOverlap (ps : List Platform) (gs : GameState)
    (h : ∀ p ∈ ps, ¬ overlapsAt p gs.unicorn.x gs.unicorn.y) : collisionFold ps gs = gs := by
  induction ps with
  | nil => rfl
  | cons p ps ih =>
    rw [collisionFold_cons, collisionStep_noOverlap p gs (h p (List.mem_cons_self p ps))]
    exact ih (fun q hq => h q (List.mem_cons_of_mem p hq))

/-! ## C1: free fall -/

/-- C1 (counterexample): on the freshly constructed session (rider at `y0 = 3`
with `dy0 = 0`, boost `0`, no platforms) one `update 1` leaves `y = 3`, not
`y0 + t*dy0 - GRAVITY*t*t = -12`. -/
theorem free_fall_formula_fails :
    freshState.unicorn.dash_time = 0 ∧ freshState.level = Level.ofPlatforms [] ∧
    ∃ gs', freshState.update 1 = some gs' ∧ gs'.unicorn.y = 3 ∧
      gs'.unicorn.y ≠
        freshState.unicorn.y + 1 * freshState.unicorn.dy - (GRAVITY : ℚ) * 1 * 1 := by
  refine ⟨rfl, rfl, kinematics 1 freshState, update_nil freshState 1 rfl, ?_, ?_⟩
  · rw [kinematics_y]; norm_num [freshState, GameState.new, Unicorn.new]
  · rw [kinematics_y]; norm_num [freshState, GameState.new, Unicorn.new]

/-- C1 (amended): with no platforms, one `update t` returns and moves the rider
to `y0 + t*dy0`, the velocity of the previous tick being used; with the boost
inactive gravity changes only `dy`, to `dy0 - GRAVITY*t`. -/
theorem free_fall_position (gs : GameState) (t : ℚ)
    (hlevel : gs.level = Level.ofPlatforms []) (hboost : gs.unicorn.dash_time = 0) :
    ∃ gs', gs.update t = some gs' ∧
      gs'.unicorn.y = gs.unicorn.y + t * gs.unicorn.dy ∧
      gs'.unicorn.dy = gs.unicorn.dy - (GRAVITY : ℚ) * t := by
  refine ⟨kinematics t gs, update_nil gs t hlevel, kinematics_y t gs, ?_⟩
  rw [kinematics_dy, if_pos hboost]
  norm_num

/-- C1 (witness): the amended statement on the fresh session with `t = 1`. -/
theorem free_fall_position_witness :
    freshState.level = Level.ofPlatforms [] ∧ freshState.unicorn.dash_time = 0 ∧
    ∃ gs', freshState.update 1 = some gs' ∧
      gs'.unicorn.y = freshState.unicorn.y + 1 * freshState.unicorn.dy ∧
      gs'.unicorn.dy = freshState.unicorn.dy - (GRAVITY : ℚ) * 1 :=
  ⟨rfl, rfl, free_fall_position freshState 1 rfl rfl⟩

/-! ## C2: restart -/

/-- C3 (counterexample): in AUTO mode at elapsed time `T = 5` with a boost
running, `update 1` gives `dx = 14`, not `2 + T = 7`. -/
theorem auto_speed_fails_when_dashing :
    dashingState.movement = Movement.AUTO ∧ dashingState.time = 5 ∧
    ∃ gs', dashingState.update 1 = some gs' ∧ gs'.unicorn.dx = 14 ∧
      gs'.unicorn.dx ≠ 2 + dashingState.time := by
  refine ⟨rfl, rfl, kinematics 1 dashingState, update_nil dashingState 1 rfl, ?_, ?_⟩
  · rw [kinematics_dx]; norm_num [dashingState]
  · rw [kinematics_dx]; norm_num [dashingState]

/-- C3 (amended): in AUTO mode at elapsed time `T`, on every level whose count
is within the platform vector and for every timestep and prior `dx`, `update`
returns with `dx = 2 + T` when the boost timer is not positive and with
`dx = DASH_SPEED_MULT * (2 + T)` when it is positive. -/
theorem auto_speed (gs : GameState) (t : ℚ)
    (hauto : gs.movement = Movement.AUTO) (hlevel : gs.level.inBounds) :
    ∃ gs', gs.update t = some gs' ∧
      gs'.unicorn.dx =
        if gs.unicorn.dash_time > 0 then (DASH_SPEED_MULT : ℚ) * (2 + gs.time)
        else 2 + gs.time := by
  refine ⟨_, update_eq_fold gs t hlevel, ?_⟩
  rw [(collisionFold_frame _ _).2.1, kinematics_dx, if_pos hauto]
  split_ifs <;> norm_num

/-- C3 (witness): the amended statement on `dashingState` with `t = 1`. -/
theorem auto_speed_witness :
    dashingState.movement = Movement.AUTO ∧ dashingState.level.inBounds ∧
    ∃ gs', dashingState.update 1 = some gs' ∧
      gs'.unicorn.dx =
        if dashingState.unicorn.dash_time > 0 then
          (DASH_SPEED_MULT : ℚ) * (2 + dashingState.time)
        else 2 + dashingState.time :=
  ⟨rfl, by decide, auto_speed dashingState 1 rfl (by decide)⟩

/-! ## C4, C5: classification of an overlap with a single platform -/

theorem spawnState_free :
    ∀ p ∈ spawnState.level.visited,
      ¬ overlapsAt p (spawnState.unicorn.x + 1 / 4 * spawnState.unicorn.dx)
        (spawnState.unicorn.y + 1 / 4 * spawnState.unicorn.dy) := by
  intro p hp
  have hp' : p = examplePlatform := by
    simpa [spawnState, GameState.new, Level.visited, Level.ofPlatforms, Level.new] using hp
  subst hp'
  norm_num [overlapsAt, spawnState, GameState.new, Unicorn.new, examplePlatform]

theorem keyDown_boostNonneg (key : Key) (gs : GameState) (h : boostNonneg gs) :
    boostNonneg (keyDown key gs) := by
  unfold boostNonneg at *
  unfold keyDown
  split_ifs <;> first | exact h | (show (0 : ℚ) ≤ 1; norm_num)

/-- Whenever the loop returns, the boost timer is the one it started with. -/
theorem collisionLoop_dash_time (n : Nat) :
    ∀ (i : Nat) (gs gs' : GameState), collisionLoop n i gs = some gs' →
      gs'.unicorn.dash_time = gs.unicorn.dash_time := by
  induction n with
  | zero =>
    intro i gs gs' h
    simp only [collisionLoop, Option.some.injEq] at h
    rw [← h]
  | succ n ih =>
    intro i gs gs' h
    rw [collisionLoop] at h
    cases hp : gs.level.platforms[i]? with
    | none => rw [hp] at h; exact absurd h (by simp)
    | some p =>
      rw [hp] at h
      rw [ih (i + 1) _ gs' h, collisionStep_dash_time]

theorem update_dash_time (gs : GameState) (t : ℚ) (hlevel : gs.level.inBounds) :
    ∃ gs', gs.update t = some gs' ∧
      gs'.unicorn.dash_time
        = if gs.unicorn.dash_time > 0 then max 0 (gs.unicorn.dash_time - 1 / 50) else 0 := by
  refine ⟨_, update_eq_fold gs t hlevel, ?_⟩
  rw [(collisionFold_frame _ _).2.2.1, kinematics_dash_time]

/-- C7: the boost timer is `0` in the constructed state; `update` (any
timestep, any level whose count is within the platform vector) returns and
keeps it non-negative, and on any level at all every result of `update` has
it non-negative, as do every key event (jump, toggle of the control
mode, move left and right, start of a boost, restart through `n`) and
`restart`; and one `update` from a timer `d > 0` leaves `max 0 (d - 0.02)`,
whatever the timestep. -/
theorem boost_timer_invariant :
    (∀ lvl : Level, boostNonneg (GameState.new lvl)) ∧
    (∀ (gs : GameState) (t : ℚ), gs.level.inBounds → boostNonneg gs →
      ∃ gs', gs.update t = some gs' ∧ boostNonneg gs') ∧
    (∀ (gs gs' : GameState) (t : ℚ), boostNonneg gs → gs.update t = some gs' →
      boostNonneg gs') ∧
    (∀ (key : Key) (gs : GameState), boostNonneg gs → boostNonneg (keyDown key gs)) ∧
    (∀ gs : GameState, boostNonneg gs → boostNonneg gs.restart) ∧
    (∀ (gs : GameState) (t : ℚ), gs.level.inBounds → gs.unicorn.dash_time > 0 →
      ∃ gs', gs.update t = some gs' ∧
        gs'.unicorn.dash_time = max 0 (gs.unicorn.dash_time - 0.02)) := by
  refine ⟨?_, ?_, ?_, keyDown_boostNonneg, ?_, ?_⟩
  · intro lvl
    exact le_refl (0 : ℚ)
  · intro gs t hlevel _
    obtain ⟨gs', hu, hd⟩ := update_dash_time gs t hlevel
    refine ⟨gs', hu, ?_⟩
    unfold boostNonneg
    rw [hd]
    split_ifs
    · exact le_max_left _ _
    · exact le_refl _
  · intro gs gs' t _ hu
    unfold boostNonneg
    rw [collisionLoop_dash_time _ _ _ gs' hu, kinematics_dash_time]
    split_ifs
    · exact le_max_left _ _
    · exact le_refl _
  · intro gs h
    exact h
  · intro gs t hlevel hpos
    obtain ⟨gs', hu, hd⟩ := update_dash_time gs t hlevel
    refine ⟨gs', hu, ?_⟩
    rw [hd, if_pos hpos]
    norm_num

/-- C7 (witness): `dashingState` (timer `1`) updated with timestep `3`: the
timer becomes `max 0 (1 - 0.02)`. -/
theorem boost_timer_invariant_witness :
    dashingState.level.inBounds ∧ dashingState.unicorn.dash_time > 0 ∧
    ∃ gs', dashingState.update 3 = some gs' ∧
      gs'.unicorn.dash_time = max 0 (dashingState.unicorn.dash_time - 0.02) :=
  ⟨by decide, by norm_num [dashingState],
    boost_timer_invariant.2.2.2.2.2 dashingState 3 (by decide) (by norm_num [dashingState])⟩

/-! ## C8: camera transform -/

theorem toInt_intCast (z : Int) : toInt (z : ℚ) = z := by
  unfold toInt
  split_ifs <;> simp

/-- With two platforms, the first overlapping fatally and the second as a
landing at the integrated position, `update` ends the game and lands on the
second platform. -/
theorem update_fatal_then_landing (gs : GameState) (t : ℚ) (p q : Platform)
    (hlevel : gs.level = Level.ofPlatforms [p, q])
    (hp : overlapsAt p (gs.unicorn.x + t * gs.unicorn.dx) (gs.unicorn.y + t * gs.unicorn.dy))
    (hps : diagonal p (gs.unicorn.x + t * gs.unicorn.dx) (gs.unicorn.y + t * gs.unicorn.dy)
      < 1 - 2)
    (hq : overlapsAt q (gs.unicorn.x + t * gs.unicorn.dx) (gs.unicorn.y + t * gs.unicorn.dy))
    (hqs : diagonal q (gs.unicorn.x + t * gs.unicorn.dx) (gs.unicorn.y + t * gs.unicorn.dy)
      ≥ 1 - 2) :
    gs.update t = some
      { kinematics t gs with
        endGame := true,
        unicorn := { (kinematics t gs).unicorn with y := q.y + 1, dy := 0 } } := by
  have hp1 : overlapsAt p (kinematics t gs).unicorn.x (kinematics t gs).unicorn.y := by
    rw [kinematics_x, kinematics_y]; exact hp
  have hp2 : diagonal p (kinematics t gs).unicorn.x (kinematics t gs).unicorn.y < -1 := by
    rw [kinematics_x, kinematics_y]; linarith
  rw [update_pair gs t p q hlevel, collisionStep_fatal p _ hp1 hp2]
  have hq1 : overlapsAt q ({ kinematics t gs with endGame := true } : GameState).unicorn.x
      ({ kinematics t gs with endGame := true } : GameState).unicorn.y := by
    show overlapsAt q (kinematics t gs).unicorn.x (kinematics t gs).unicorn.y
    rw [kinematics_x, kinematics_y]; exact hq
  have hq2 : diagonal q ({ kinematics t gs with endGame := true } : GameState).unicorn.x
      ({ kinematics t gs with endGame := true } : GameState).unicorn.y ≥ -1 := by
    show diagonal q (kinematics t gs).unicorn.x (kinematics t gs).unicorn.y ≥ -1
    rw [kinematics_x, kinematics_y]; linarith
  rw [collisionStep_landing q _ hq1 hq2]

end UnicornGame
